import Mathlib

set_option maxRecDepth 8192

/-!
Shallow embedding of the calendar agent (agent.py, database.py, gcalendar.py,
gmail.py) and proofs about its command interpretation, resolution and
confirmation pipeline.

Conventions of the embedding:
* Python exceptions are modelled with `Except String`, the `String` being the
  exception text `str(e)`.  Side effects survive a raised exception, so every
  effectful function returns `Sys × Except String α`: the state component is
  the state at the moment the exception escapes.
* The external collaborators (Google calendar, Gmail) are oracles bundled in
  `Collab`; a call either succeeds or raises, exactly once, with no retry.
* Strings are manipulated through their character lists so that the Python
  string primitives used by the code (`split`, `startswith`, `lower`,
  `in`, `replace`, `strip`) have transparent, provable models.
-/

/-- Python `str.lower()` restricted to the characters the repository uses. -/
def lowerChars (l : List Char) : List Char := l.map Char.toLower

/-- Python `needle in hay` on strings: `containsSub needle hay` is true when
`needle` occurs as a contiguous substring of `hay`. -/
def containsSub (needle : List Char) : List Char → Bool
  | [] => needle.isPrefixOf []
  | c :: t => needle.isPrefixOf (c :: t) || containsSub needle t

/-- Case-insensitive substring test, the semantics of both Python
`summary.lower() in e['summary'].lower()` (agent.py line 419) and the SQL
`summary ILIKE '%…%'` of `Database.get_events_by_summary`. -/
def ciContains (hay needle : String) : Bool :=
  containsSub (lowerChars needle.data) (lowerChars hay.data)

/-- Python `s.split(sep)` for a one-character separator (full split). -/
def splitOnChar (sep : Char) : List Char → List (List Char)
  | [] => [[]]
  | c :: cs =>
    match splitOnChar sep cs with
    | [] => [[]]
    | g :: gs => if c = sep then [] :: g :: gs else (c :: g) :: gs

/-- Python `s.split(sep, maxsplit)` for a one-character separator: at most
`m` splits are made from the left, the remainder keeps its separators. -/
def pySplitAux (sep : Char) : Nat → List Char → List (List Char)
  | _, [] => [[]]
  | 0, cs => [cs]
  | m + 1, c :: cs =>
    if c = sep then [] :: pySplitAux sep m cs
    else
      match pySplitAux sep (m + 1) cs with
      | [] => [[c]]
      | g :: gs => (c :: g) :: gs

/-- One persisted row of the `agent_events` table, as the `RealDictCursor`
hands it to the agent.  `start_time` and `end_time` hold the ISO
`YYYY-MM-DDTHH:MM:SS` strings the agent writes. -/
structure StoredEvent where
  event_id : String
  summary : String
  start_time : String
  end_time : String
deriving Repr, DecidableEq

/-- Time-of-day part of a stored start, Python `e['start_time'].split('T')[1]`
(agent.py lines 406 and 481; the datetime branch produces the same
`HH:MM:SS` text via `strftime('%H:%M:%S')`). -/
def timeOfStart (e : StoredEvent) : List Char :=
  (splitOnChar 'T' e.start_time.data).getD 1 []

/-- Date part of a stored start.  This is the value the effective
`Database.get_events_by_date` (the second, shadowing definition at
database.py lines 116-127) compares with the query date: `DATE(start_time)`
under the connection's session timezone, which for the naive timestamps the
agent stores round-trips to the literal date prefix of the stored text. -/
def dateOfStart (e : StoredEvent) : String :=
  String.mk ((splitOnChar 'T' e.start_time.data).getD 0 [])

/-- First five characters of the time of day, Python `[:5]` / `%H:%M`. -/
def eventTime5 (e : StoredEvent) : String :=
  String.mk ((timeOfStart e).take 5)

/-- An email the agent asks the Gmail collaborator to send; `toAddr` models
the `to=` keyword argument of `send_email`. -/
structure Email where
  toAddr : String
  subject : String
  body : String
deriving Repr, DecidableEq

/-- A confirmation prompt: message text plus the two inline-button payloads. -/
structure Prompt where
  text : String
  confirm_data : String
  cancel_data : String
deriving Repr, DecidableEq

/-- Observable state: the event store, the set of event ids existing in the
external Google calendar, and the outbound traffic (sent emails, plain
replies, message edits, button prompts). -/
structure Sys where
  db : List StoredEvent
  calendar : List String
  emails : List Email
  replies : List String
  edits : List String
  prompts : List Prompt
deriving Repr, DecidableEq

/-- Behaviour of the external collaborators: each call either returns a value
or raises with the given exception text. `calCreate`/`calUpdate` return the
`(id, htmlLink)` pair the agent reads off the Google response. -/
structure Collab where
  calCreate : String → String → String → Except String (String × String)
  calUpdate : String → String → String → String → Except String (String × String)
  calDelete : String → Except String Unit
  mailSend : Email → Except String Unit

/-- Fixed demo notification address used by every `send_email` call. -/
def demoAddr : String := "g.canale@escom.it"

/-- GmailService.send_email: on success the mail is recorded as sent, on
failure the wrapped exception propagates to the caller (gmail.py line 64). -/
def sendEmail (c : Collab) (m : Email) (s : Sys) : Sys × Except String Unit :=
  match c.mailSend m with
  | .error e => (s, .error e)
  | .ok _ => ({ s with emails := s.emails ++ [m] }, .ok ())

/-- Database.get_events_by_date — the effective definition (database.py
lines 116-127; it shadows the Europe/Rome variant of lines 42-53 because
Python keeps the last definition of a repeated method name). -/
def get_events_by_date (db : List StoredEvent) (date : String) : List StoredEvent :=
  db.filter (fun e => decide (dateOfStart e = date))

/-- Database.get_events_by_summary: `summary ILIKE '%x%'`. -/
def get_events_by_summary (db : List StoredEvent) (x : String) : List StoredEvent :=
  db.filter (fun e => ciContains e.summary x)

/-- Database.delete_event: removes the rows with the given `event_id`. -/
def db_delete_event (db : List StoredEvent) (id : String) : List StoredEvent :=
  db.filter (fun e => decide (e.event_id ≠ id))

/-- Database.upsert_event: `INSERT … ON CONFLICT (event_id) DO UPDATE`. -/
def upsert_event (db : List StoredEvent) (ev : StoredEvent) : List StoredEvent :=
  if db.any (fun e => decide (e.event_id = ev.event_id)) then
    db.map (fun e => if e.event_id = ev.event_id then ev else e)
  else db ++ [ev]

/-- Database.get_events: all rows `ORDER BY start_time`. -/
def get_events (db : List StoredEvent) : List StoredEvent :=
  db.insertionSort (fun a b => a.start_time ≤ b.start_time)

/-- Time filter predicate of the resolver: does the supplied time match the
event's time of day as a prefix (Python `event_time.startswith(time)`)? -/
def timeMatch (time : String) (e : StoredEvent) : Bool :=
  time.data.isPrefixOf (timeOfStart e)

/-- Title filter predicate of the resolver (agent.py line 419). -/
def titleMatch (x : String) (e : StoredEvent) : Bool :=
  ciContains e.summary x

/-- Advisory time narrowing, stage 2 of the resolver as written in
`_confirm_delete` (agent.py lines 401-415): the filtered subset is adopted
only when it is non-empty. -/
def advisoryTime (events : List StoredEvent) (time : String) : List StoredEvent :=
  if time = "" then events
  else
    let f := events.filter (timeMatch time)
    if f.isEmpty then events else f

/-- Advisory title narrowing, stage 3 of the resolver as written in
`_confirm_delete` (agent.py lines 417-421). -/
def advisoryTitle (events : List StoredEvent) (x : String) : List StoredEvent :=
  if x = "" then events
  else
    let f := events.filter (titleMatch x)
    if f.isEmpty then events else f

/-- Stages 1-2 of the resolver cascade (fetch by date, then advisory time
narrowing), exactly as `_confirm_delete` runs them. -/
def resolverStage12 (db : List StoredEvent) (date time : String) : List StoredEvent :=
  advisoryTime (get_events_by_date db date) time

/-- The recomputation `_delete_event` actually performs at confirmation time
(agent.py lines 475-487): fetch by date, then a STRICT time-prefix filter
with no advisory fallback. -/
def deleteRecompute (db : List StoredEvent) (date time : String) : List StoredEvent :=
  (get_events_by_date db date).filter (fun e => timeMatch time e)

/-- Intent dictionary produced by `parse_command`, with Python's
present/absent distinction for each key (`none` models a missing key). -/
structure ActionData where
  action : Option String
  summary : Option String
  start : Option String
  end_ : Option String
  event_id : Option String
  date : Option String
  time : Option String
deriving Repr, DecidableEq

/-- Text of Python `str(KeyError(k))`: the key wrapped in single quotes. -/
def keyErr (k : String) : String := "\x27" ++ k ++ "\x27"

/-- Candidate set `_confirm_delete` computes for a delete intent: fetch by
date, then advisory time and title narrowing. -/
def resolveCandidates (db : List StoredEvent) (a : ActionData) : List StoredEvent :=
  match a.date with
  | none => []
  | some date =>
    if date = "" then []
    else advisoryTitle (advisoryTime (get_events_by_date db date) (a.time.getD "")) (a.summary.getD "")

/-- Fixed failure reply of `handle_message` (agent.py line 208). -/
def genericErr : String := "❌ Errore durante l\x27operazione."

/-- Prefix of the user-visible reply of the modify path's local exception
handler (agent.py line 351), to which `str(e)` is appended. -/
def modErrMsg (e : String) : String :=
  "❌ Errore durante la modifica dell\x27evento: " ++ e

/-- Error-notification email `_execute_action` sends before re-raising
(agent.py lines 265-269). -/
def errEmail (act e : String) : Email :=
  ⟨demoAddr, "Errore operazione", "Errore durante " ++ act ++ ": " ++ e⟩

/-- CalendarAgent._add_event: create on the calendar first, then mirror into
the store, then notify; any raise propagates.  A missing mandatory key is
Python's `KeyError` on the subscript. -/
def _add_event (c : Collab) (a : ActionData) (s : Sys) : Sys × Except String String :=
  match a.summary with
  | none => (s, .error (keyErr "summary"))
  | some sum =>
    match a.start with
    | none => (s, .error (keyErr "start"))
    | some st =>
      match a.end_ with
      | none => (s, .error (keyErr "end"))
      | some en =>
        match c.calCreate sum st en with
        | .error e => (s, .error e)
        | .ok (id, link) =>
          let s1 := { s with calendar := s.calendar ++ [id] }
          let s2 := { s1 with db := upsert_event s1.db ⟨id, sum, st, en⟩ }
          match sendEmail c ⟨demoAddr, "Nuovo evento creato",
              "Evento creato: " ++ sum ++ "\nOra: " ++ st⟩ s2 with
          | (s3, .error e) => (s3, .error e)
          | (s3, .ok _) => (s3, .ok ("✅ Evento creato: " ++ link))

/-- Candidate line list used by `_modify_event` for an ambiguous title. -/
def eventLines (events : List StoredEvent) : String :=
  String.intercalate "\n" (events.map (fun e => e.summary ++ " (" ++ e.start_time ++ ")"))

/-- Body of `_modify_event`'s try block (agent.py lines 324-351): calendar
update, store upsert, notification; every raise inside it is caught locally
and surfaced as a reply embedding `str(e)`. -/
def modifyTry (c : Collab) (a : ActionData) (eid : String) (s : Sys) :
    Sys × Except String String :=
  match a.summary with
  | none => (s, .ok (modErrMsg (keyErr "summary")))
  | some sum =>
    match a.start with
    | none => (s, .ok (modErrMsg (keyErr "start")))
    | some st =>
      match a.end_ with
      | none => (s, .ok (modErrMsg (keyErr "end")))
      | some en =>
        match c.calUpdate eid sum st en with
        | .error e => (s, .ok (modErrMsg e))
        | .ok (rid, link) =>
          let s1 := { s with db := upsert_event s.db ⟨rid, sum, st, en⟩ }
          match sendEmail c ⟨demoAddr, "Evento modificato",
              "Evento modificato: " ++ sum ++ "\nNuovo orario: " ++ st⟩ s1 with
          | (s2, .error e) => (s2, .ok (modErrMsg e))
          | (s2, .ok _) => (s2, .ok ("🔄 Evento modificato: " ++ link))

/-- CalendarAgent._modify_event: resolve the target by title when no usable
`event_id` is given (0 matches → "not found" reply, >1 → plain candidate
list, no confirmation step), then run the locally-guarded update. -/
def _modify_event (c : Collab) (a : ActionData) (s : Sys) : Sys × Except String String :=
  let eid := a.event_id
  if eid = none ∨ eid = some "" ∨ eid = some "ID_DA_CERCARE_IN_DB" then
    match a.summary with
    | none => (s, .error (keyErr "summary"))
    | some sum =>
      let events := get_events_by_summary s.db sum
      if events.isEmpty then (s, .ok "❌ Nessun evento trovato con questo titolo.")
      else if 1 < events.length then
        (s, .ok ("🔍 Trovati più eventi. Specifica quale vuoi modificare:\n" ++ eventLines events))
      else modifyTry c a ((events.headD ⟨"", "", "", ""⟩).event_id) s
  else modifyTry c a (eid.getD "") s

/-- CalendarAgent._list_events. -/
def _list_events (db : List StoredEvent) : String :=
  if db.isEmpty then "🗓️ Nessun evento trovato."
  else String.intercalate "\n"
    ((get_events db).map (fun e => e.summary ++ " (" ++ e.start_time ++ ")"))

/-- CalendarAgent._confirm_delete (agent.py lines 382-471): compute the
candidate set with the advisory cascade and emit a confirmation prompt whose
payload is the `{date, time}` pair; never mutates store or calendar. -/
def _confirm_delete (a : ActionData) (s : Sys) : Sys × Except String (Option String) :=
  let time := a.time.getD ""
  let sum := a.summary.getD ""
  match a.date with
  | none => (s, .ok (some "❌ Data non specificata per la cancellazione."))
  | some date =>
    if date = "" then (s, .ok (some "❌ Data non specificata per la cancellazione."))
    else
      let events := get_events_by_date s.db date
      if events.isEmpty then
        (s, .ok (some ("❌ Nessun evento trovato per il " ++ date ++ ".")))
      else
        let events1 := advisoryTime events time
        let events2 := advisoryTitle events1 sum
        if events2.length = 1 then
          let e := events2.headD ⟨"", "", "", ""⟩
          let p : Prompt :=
            ⟨"🗑️ Vuoi eliminare \x27" ++ e.summary ++ "\x27 del " ++ date ++
               " alle " ++ eventTime5 e ++ "?",
             "delete_confirm:" ++ date ++ ":" ++ time, "delete_cancel"⟩
          ({ s with prompts := s.prompts ++ [p] }, .ok none)
        else
          let lines := String.intercalate "\n"
            ((events2.take 5).map (fun e => "- " ++ e.summary ++ " (" ++ eventTime5 e ++ ")"))
          let p : Prompt :=
            ⟨"🔍 Trovati " ++ toString events2.length ++ " eventi per il " ++ date ++
               ":\n" ++ lines,
             "delete_confirm:" ++ date ++ ":" ++ time, "delete_cancel"⟩
          ({ s with prompts := s.prompts ++ [p] }, .ok none)

/-- Deletion loop of `_delete_event` (agent.py lines 493-497): for each
target event, delete on the calendar then in the store; a calendar raise
escapes immediately, keeping the deletions already performed. -/
def delLoop (c : Collab) : List StoredEvent → Sys → Sys × Except String Unit
  | [], s => (s, .ok ())
  | e :: rest, s =>
    match c.calDelete e.event_id with
    | .error msg => (s, .error msg)
    | .ok _ =>
      delLoop c rest
        { s with calendar := s.calendar.filter (fun id => decide (id ≠ e.event_id)),
                 db := db_delete_event s.db e.event_id }

/-- Notification loop of `_delete_event` (agent.py lines 500-515): wrapped in
try/except, so the first failing send aborts the remaining sends but the
function continues normally. -/
def emailLoop (c : Collab) : List StoredEvent → Sys → Sys
  | [], s => s
  | e :: rest, s =>
    let m : Email := ⟨demoAddr, "Evento cancellato",
      "È stato cancellato l\x27evento: " ++ e.summary ++ "\nData/ora: " ++ e.start_time⟩
    match c.mailSend m with
    | .error _ => s
    | .ok _ => emailLoop c rest { s with emails := s.emails ++ [m] }

/-- CalendarAgent._delete_event (agent.py lines 473-517): recompute the
target set from the current store with a strict time-prefix filter, delete
each target, send best-effort notifications, report the count. -/
def _delete_event (c : Collab) (date time : String) (s : Sys) : Sys × Except String Unit :=
  let target := deleteRecompute s.db date time
  if target.isEmpty then
    ({ s with edits := s.edits ++ ["❌ Nessun evento trovato."] }, .ok ())
  else
    match delLoop c target s with
    | (s1, .error e) => (s1, .error e)
    | (s1, .ok _) =>
      let s2 := emailLoop c target s1
      ({ s2 with edits := s2.edits ++ ["🗑️ Eliminati " ++ toString target.length ++ " eventi."] },
       .ok ())

/-- CalendarAgent.button_callback (agent.py lines 360-380).  Note there is no
exception handling here: whatever `_delete_event` raises escapes. -/
def button_callback (c : Collab) (data : String) (s : Sys) : Sys × Except String Unit :=
  if "delete_confirm:".data.isPrefixOf data.data then
    let parts := (pySplitAux ':' 2 data.data).map (fun l => String.mk l)
    if 3 ≤ parts.length then _delete_event c (parts.getD 1 "") (parts.getD 2 "") s
    else ({ s with edits := s.edits ++ ["❌ Dati di callback non validi."] }, .ok ())
  else if data = "delete_cancel" then
    ({ s with edits := s.edits ++ ["❌ Cancellazione annullata."] }, .ok ())
  else ({ s with edits := s.edits ++ ["❌ Azione non riconosciuta."] }, .ok ())

/-- Action name as interpolated into the error email: `None` when absent. -/
def actionStr (a : ActionData) : String := a.action.getD "None"

/-- CalendarAgent._execute_action (agent.py lines 249-270): dispatch on the
action tag; any raise from the handler triggers the error-notification email
and is then re-raised (a failing send replaces the propagating exception). -/
def _execute_action (c : Collab) (a : ActionData) (s : Sys) :
    Sys × Except String (Option String) :=
  let inner : Sys × Except String (Option String) :=
    if a.action = some "add" then
      match _add_event c a s with
      | (s1, .ok m) => (s1, .ok (some m))
      | (s1, .error e) => (s1, .error e)
    else if a.action = some "delete" then _confirm_delete a s
    else if a.action = some "modify" then
      match _modify_event c a s with
      | (s1, .ok m) => (s1, .ok (some m))
      | (s1, .error e) => (s1, .error e)
    else if a.action = some "list" then (s, .ok (some (_list_events s.db)))
    else (s, .ok (some "❌ Azione non supportata."))
  match inner with
  | (s1, .ok r) => (s1, .ok r)
  | (s1, .error e) =>
    match sendEmail c (errEmail (actionStr a) e) s1 with
    | (s2, .ok _) => (s2, .error e)
    | (s2, .error e2) => (s2, .error e2)

/-- JSON values, the image of Python `json.loads` on the responses the agent
receives.  Numbers are modelled as integers (none of the prompts or claims
involve fractional numbers).  Python dicts keep the last of duplicated keys
while this association list is read through its first match; no claim
involves duplicated keys. -/
inductive Json where
  | jstr : String → Json
  | jnum : Int → Json
  | jbool : Bool → Json
  | jnull : Json
  | jarr : List Json → Json
  | jobj : List (String × Json) → Json

/-- Whitespace accepted between JSON tokens. -/
def isWsChar (c : Char) : Bool := c = ' ' || c = '\n' || c = '\t' || c = '\r'

/-- Skip inter-token whitespace. -/
def skipWs (l : List Char) : List Char := l.dropWhile isWsChar

/-- Hexadecimal digit value. -/
def hexDigit (c : Char) : Option Nat :=
  if '0' ≤ c ∧ c ≤ '9' then some (c.toNat - 48)
  else if 'a' ≤ c ∧ c ≤ 'f' then some (c.toNat - 87)
  else if 'A' ≤ c ∧ c ≤ 'F' then some (c.toNat - 55)
  else none

/-- Single-character JSON string escapes. -/
def escChar (c : Char) : Option Char :=
  if c = '"' then some '"'
  else if c = '\\' then some '\\'
  else if c = '/' then some '/'
  else if c = 'b' then some (Char.ofNat 8)
  else if c = 'f' then some (Char.ofNat 12)
  else if c = 'n' then some '\n'
  else if c = 'r' then some '\r'
  else if c = 't' then some '\t'
  else none

/-- Parse the body of a JSON string after its opening quote; returns the
decoded characters and the input after the closing quote.  The `\uXXXX`
escape decodes to the corresponding code point, as `json.loads` does. -/
def pStrF : Nat → List Char → Option (List Char × List Char)
  | 0, _ => none
  | _ + 1, [] => none
  | f + 1, c :: cs =>
    if c = '"' then some ([], cs)
    else if c = '\\' then
      match cs with
      | [] => none
      | e :: cs1 =>
        if e = 'u' then
          match cs1 with
          | h1 :: h2 :: h3 :: h4 :: cs2 =>
            match hexDigit h1, hexDigit h2, hexDigit h3, hexDigit h4 with
            | some a, some b, some c3, some d4 =>
              match pStrF f cs2 with
              | some (out, rest) =>
                some (Char.ofNat (((a * 16 + b) * 16 + c3) * 16 + d4) :: out, rest)
              | none => none
            | _, _, _, _ => none
          | _ => none
        else
          match escChar e with
          | none => none
          | some d =>
            match pStrF f cs1 with
            | some (out, rest) => some (d :: out, rest)
            | none => none
    else
      match pStrF f cs with
      | some (out, rest) => some (c :: out, rest)
      | none => none

/-- Decimal digit test. -/
def isDigitCh (c : Char) : Bool := '0' ≤ c && c ≤ '9'

/-- Value of a non-empty digit run. -/
def natOfDigits (l : List Char) : Nat :=
  l.foldl (fun n c => n * 10 + (c.toNat - 48)) 0

/-- Parse the members of a JSON object after its opening brace (non-empty
object case), with the value parser supplied by the caller. -/
def pMembers (pv : List Char → Option (Json × List Char)) :
    Nat → List Char → List (String × Json) → Option (Json × List Char)
  | 0, _, _ => none
  | f + 1, l, acc =>
    match skipWs l with
    | '"' :: cs =>
      match pStrF (cs.length + 1) cs with
      | none => none
      | some (k, r1) =>
        match skipWs r1 with
        | ':' :: r2 =>
          match pv r2 with
          | none => none
          | some (v, r3) =>
            match skipWs r3 with
            | ',' :: r4 => pMembers pv f r4 (acc ++ [(String.mk k, v)])
            | '}' :: r4 => some (.jobj (acc ++ [(String.mk k, v)]), r4)
            | _ => none
        | _ => none
    | _ => none

/-- Parse the elements of a JSON array after its opening bracket (non-empty
array case), with the value parser supplied by the caller. -/
def pElems (pv : List Char → Option (Json × List Char)) :
    Nat → List Char → List Json → Option (Json × List Char)
  | 0, _, _ => none
  | f + 1, l, acc =>
    match pv l with
    | none => none
    | some (v, r) =>
      match skipWs r with
      | ',' :: r2 => pElems pv f r2 (acc ++ [v])
      | ']' :: r2 => some (.jarr (acc ++ [v]), r2)
      | _ => none

/-- Parse one JSON value.  The fuel only bounds nesting; each sub-parser's
own fuel is derived from the length of its input. -/
def pVal : Nat → List Char → Option (Json × List Char)
  | 0, _ => none
  | f + 1, l =>
    match skipWs l with
    | [] => none
    | c :: cs =>
      if c = '"' then
        match pStrF (cs.length + 1) cs with
        | some (o, r) => some (.jstr (String.mk o), r)
        | none => none
      else if c = '{' then
        match skipWs cs with
        | '}' :: r => some (.jobj [], r)
        | _ => pMembers (pVal f) (cs.length + 1) cs []
      else if c = '[' then
        match skipWs cs with
        | ']' :: r => some (.jarr [], r)
        | _ => pElems (pVal f) (cs.length + 1) cs []
      else if c = 't' then
        match cs with
        | 'r' :: 'u' :: 'e' :: r => some (.jbool true, r)
        | _ => none
      else if c = 'f' then
        match cs with
        | 'a' :: 'l' :: 's' :: 'e' :: r => some (.jbool false, r)
        | _ => none
      else if c = 'n' then
        match cs with
        | 'u' :: 'l' :: 'l' :: r => some (.jnull, r)
        | _ => none
      else if c = '-' then
        let ds := cs.takeWhile isDigitCh
        if ds.isEmpty then none
        else some (.jnum (-(natOfDigits ds : Int)), cs.dropWhile isDigitCh)
      else if isDigitCh c then
        some (.jnum (natOfDigits ((c :: cs).takeWhile isDigitCh)),
              (c :: cs).dropWhile isDigitCh)
      else none

/-- Python `json.loads`: parse one value and require only whitespace after
it. -/
def jsonParse (l : List Char) : Option Json :=
  match pVal (l.length + 1) l with
  | some (v, r) => if (skipWs r).isEmpty then some v else none
  | none => none

/-- Python `str.strip()`: drop leading and trailing whitespace. -/
def pyStrip (l : List Char) : List Char :=
  (((l.dropWhile isWsChar).reverse).dropWhile isWsChar).reverse

/-- Python `str.replace(pat, rep)`, fuelled for structural recursion: each
step consumes at least one character, so fuel `l.length` is exact. -/
def replaceListF (pat rep : List Char) : Nat → List Char → List Char
  | 0, l => l
  | n + 1, l =>
    match l with
    | [] => []
    | c :: cs =>
      if pat ≠ [] ∧ pat.isPrefixOf (c :: cs) then
        rep ++ replaceListF pat rep n (cs.drop (pat.length - 1))
      else c :: replaceListF pat rep n cs

/-- Python `str.replace(pat, rep)`: left-to-right, non-overlapping. -/
def replaceList (pat rep l : List Char) : List Char :=
  replaceListF pat rep l.length l

/-- Backtick character, kept out of the source text. -/
def btick : Char := Char.ofNat 96

/-- Single-quote character. -/
def squote : Char := '\x27'

/-- Sanitization of the completion response (agent.py line 229):
`response_text.strip().replace('```json', '').replace('```', '')
.replace("'", '"')`. -/
def sanitizeChars (resp : String) : List Char :=
  replaceList [squote] ['"']
    (replaceList [btick, btick, btick] []
      (replaceList [btick, btick, btick, 'j', 's', 'o', 'n'] []
        (pyStrip resp.data)))

/-- CalendarAgent.parse_command (agent.py lines 210-247) after the
completion service returned `resp`: sanitize, `json.loads`, require the
`action` key.  A `JSONDecodeError` becomes `ValueError("Formato risposta non
riconosciuto")`; a missing `action` raises `ValueError("Campo 'action'
mancante")`.  A payload that parses to a non-object also raises in Python
(with an exception-type-dependent text) and is mapped to the missing-action
error here; no claim distinguishes those texts. -/
def parse_command (resp : String) : Except String (List (String × Json)) :=
  match jsonParse (sanitizeChars resp) with
  | none => .error "Formato risposta non riconosciuto"
  | some (.jobj d) =>
    if (d.lookup "action").isSome then .ok d
    else .error ("Campo \x27action\x27 mancante")
  | some _ => .error ("Campo \x27action\x27 mancante")

/-- String field of the parsed dict.  The handlers read these keys as
strings; a key bound to a non-string value only matters on paths no claim
touches. -/
def getStr (d : List (String × Json)) (k : String) : Option String :=
  match d.lookup k with
  | some (.jstr x) => some x
  | _ => none

/-- View of the parsed dict through the keys the handlers read. -/
def toActionData (d : List (String × Json)) : ActionData :=
  { action := getStr d "action", summary := getStr d "summary",
    start := getStr d "start", end_ := getStr d "end",
    event_id := getStr d "event_id", date := getStr d "date",
    time := getStr d "time" }

/-- CalendarAgent.handle_message (agent.py lines 198-208) given the raw
completion-service response for the incoming text: parse, execute, reply;
any raise is logged and answered with the fixed generic failure message. -/
def handle_message (c : Collab) (resp : String) (s : Sys) : Sys :=
  match parse_command resp with
  | .error _ => { s with replies := s.replies ++ [genericErr] }
  | .ok d =>
    match _execute_action c (toActionData d) s with
    | (s1, .ok (some r)) => { s1 with replies := s1.replies ++ [r] }
    | (s1, .ok none) => s1
    | (s1, .error _) => { s1 with replies := s1.replies ++ [genericErr] }

/-!
Timezone-level model of `Database.get_events_by_date`.  `database.py`
contains two definitions of this method; Python class bodies keep the last
one, so the definition at lines 116-127 (plain `DATE(start_time) = %s`) is
the one that runs, shadowing the one at lines 42-53
(`DATE(start_time AT TIME ZONE 'Europe/Rome') = %s`).  Here a `timestamptz`
is its instant, in minutes from an arbitrary epoch, and a date is a day
index from the same epoch; `DATE(… AT TIME ZONE z)` is the floor of the
zone-shifted instant to days.  No `SET TIME ZONE` is ever issued, so the
effective definition uses the connection's session offset, not Europe/Rome.
-/

/-- One `agent_events` row at the SQL level: `start_time` is an instant. -/
structure TzEvent where
  event_id : String
  summary : String
  start_utc_min : Int
deriving Repr, DecidableEq

/-- Day index of an instant shifted into a zone with offset `offMin`
minutes: `DATE(ts AT TIME ZONE zone)`. -/
def dateAtOffset (offMin t : Int) : Int := Int.fdiv (t + offMin) 1440

/-- The shadowed first definition (database.py lines 42-53):
`DATE(start_time AT TIME ZONE 'Europe/Rome') = %s` with Rome at `romeOff`
minutes ahead of UTC. -/
def get_events_by_date_rome (romeOff : Int) (db : List TzEvent) (d : Int) : List TzEvent :=
  db.filter (fun e => decide (dateAtOffset romeOff e.start_utc_min = d))

/-- The effective second definition (database.py lines 116-127):
`DATE(start_time) = %s`, evaluated under the session timezone offset
`sessOff`. -/
def get_events_by_date_eff (sessOff : Int) (db : List TzEvent) (d : Int) : List TzEvent :=
  db.filter (fun e => decide (dateAtOffset sessOff e.start_utc_min = d))

/-- Event starting 22:30 UTC of epoch day 0 (read: 2024-06-05T22:30Z, which
is 2024-06-06 00:30 in Europe/Rome, CEST = UTC+120 minutes). -/
def tzEventEx : TzEvent := ⟨"id9", "late evening", 1350⟩

/-- Store holding only `tzEventEx`. -/
def tzDbEx : List TzEvent := [tzEventEx]

/-!
Concrete fixtures for counterexamples and witnesses.
-/

/-- Collaborators that always succeed. -/
def collabOK : Collab :=
  { calCreate := fun sum _ _ => .ok ("id_" ++ sum, "https://cal/new"),
    calUpdate := fun id _ _ _ => .ok (id, "https://cal/upd"),
    calDelete := fun _ => .ok (),
    mailSend := fun _ => .ok () }

/-- Collaborators whose calendar-delete call always raises `boom`. -/
def collabDelFail : Collab :=
  { collabOK with calDelete := fun _ => .error "boom" }

/-- Collaborators whose calendar-update call always raises `boom`. -/
def collabUpdFail : Collab :=
  { collabOK with calUpdate := fun _ _ _ _ => .error "boom" }

/-- Collaborators whose calendar-create call always raises `boom`. -/
def collabAddFail : Collab :=
  { collabOK with calCreate := fun _ _ _ => .error "boom" }

/-- Collaborators whose email send always raises `mailboom`. -/
def collabMailFail : Collab :=
  { collabOK with mailSend := fun _ => .error "mailboom" }

/-- Stored event on 2024-06-05 at 10:00. -/
def evTen : StoredEvent :=
  ⟨"id1", "dentista", "2024-06-05T10:00:00", "2024-06-05T11:00:00"⟩

/-- Stored event on 2024-06-05 at 09:30. -/
def evNine : StoredEvent :=
  ⟨"id2", "riunione", "2024-06-05T09:30:00", "2024-06-05T10:30:00"⟩

/-- Empty system state. -/
def sys0 : Sys := ⟨[], [], [], [], [], []⟩

/-- System holding exactly `evTen`, mirrored on the calendar. -/
def sysA : Sys := ⟨[evTen], ["id1"], [], [], [], []⟩

/-- System holding `evTen` and `evNine`, mirrored on the calendar. -/
def sysB : Sys := ⟨[evTen, evNine], ["id1", "id2"], [], [], [], []⟩

/-- Completion response for a well-formed add command (spec §8 scenario 1). -/
def respAdd : String :=
  "\x7b\"action\": \"add\", \"summary\": \"riunione\", \"start\": \"2024-05-30T14:00:00\", \"end\": \"2024-05-30T16:00:00\"\x7d"

/-- Parse of `respAdd`. -/
def dictAdd : List (String × Json) :=
  [("action", .jstr "add"), ("summary", .jstr "riunione"),
   ("start", .jstr "2024-05-30T14:00:00"), ("end", .jstr "2024-05-30T16:00:00")]

/-- Valid JSON whose title carries the apostrophe as the `'` escape. -/
def respEsc : String :=
  "\x7b\"action\": \"add\", \"summary\": \"l\\u0027appuntamento\", \"start\": \"2024-06-05T10:00:00\", \"end\": \"2024-06-05T11:00:00\"\x7d"

/-- Parse of `respEsc`: the decoded title contains a literal apostrophe. -/
def dictEsc : List (String × Json) :=
  [("action", .jstr "add"), ("summary", .jstr "l\x27appuntamento"),
   ("start", .jstr "2024-06-05T10:00:00"), ("end", .jstr "2024-06-05T11:00:00")]

/-- Valid JSON whose title carries a literal apostrophe
("l'appuntamento"). -/
def respLit : String :=
  "\x7b\"action\": \"delete\", \"summary\": \"l\x27appuntamento\", \"date\": \"2024-06-05\"\x7d"

/-- Completion response for a modify command with a known identifier. -/
def respMod : String :=
  "\x7b\"action\": \"modify\", \"event_id\": \"ev9\", \"summary\": \"call\", \"start\": \"2024-05-30T15:00:00\", \"end\": \"2024-05-30T16:00:00\"\x7d"

/-!
General lemmas about the advisory filters and the deletion loop.
-/

theorem advisoryTime_of_filter_empty (l : List StoredEvent) (t : String)
    (hf : l.filter (timeMatch t) = []) : advisoryTime l t = l := by
  unfold advisoryTime
  split
  · rfl
  · simp [hf]

theorem advisoryTitle_of_filter_empty (l : List StoredEvent) (x : String)
    (hf : l.filter (titleMatch x) = []) : advisoryTitle l x = l := by
  unfold advisoryTitle
  split
  · rfl
  · simp [hf]

theorem advisoryTime_ne_nil (l : List StoredEvent) (t : String)
    (h : l ≠ []) : advisoryTime l t ≠ [] := by
  unfold advisoryTime
  split
  · exact h
  · cases hc : (l.filter (timeMatch t)).isEmpty with
    | true => simpa [hc] using h
    | false =>
      simp only [hc, if_false]
      simpa using hc

theorem advisoryTitle_ne_nil (l : List StoredEvent) (x : String)
    (h : l ≠ []) : advisoryTitle l x ≠ [] := by
  unfold advisoryTitle
  split
  · exact h
  · cases hc : (l.filter (titleMatch x)).isEmpty with
    | true => simpa [hc] using h
    | false =>
      simp only [hc, if_false]
      simpa using hc

/-- C3 (confirmed): in the resolver cascade, a non-empty date fetch is never
reduced to empty by the time filter or by the title filter; whenever a
filter's narrowed subset is empty the pre-filter set is returned
unchanged. -/
theorem advisory_narrowing (db : List StoredEvent) (date time x : String)
    (h : get_events_by_date db date ≠ []) :
    (advisoryTime (get_events_by_date db date) time ≠ []) ∧
    ((get_events_by_date db date).filter (timeMatch time) = [] →
      advisoryTime (get_events_by_date db date) time = get_events_by_date db date) ∧
    (advisoryTitle (advisoryTime (get_events_by_date db date) time) x ≠ []) ∧
    ((advisoryTime (get_events_by_date db date) time).filter (titleMatch x) = [] →
      advisoryTitle (advisoryTime (get_events_by_date db date) time) x =
        advisoryTime (get_events_by_date db date) time) := by
  refine ⟨advisoryTime_ne_nil _ _ h, advisoryTime_of_filter_empty _ _,
    advisoryTitle_ne_nil _ _ (advisoryTime_ne_nil _ _ h), advisoryTitle_of_filter_empty _ _⟩

/-- Witness for `advisory_narrowing`: `sysB`'s store on 2024-06-05 with a
time filter `14:00` (matching nothing) and a title filter `xyz` (matching
nothing). -/
theorem advisory_narrowing_witness :
    (advisoryTime (get_events_by_date sysB.db "2024-06-05") "14:00" ≠ []) ∧
    ((get_events_by_date sysB.db "2024-06-05").filter (timeMatch "14:00") = [] →
      advisoryTime (get_events_by_date sysB.db "2024-06-05") "14:00" =
        get_events_by_date sysB.db "2024-06-05") ∧
    (advisoryTitle (advisoryTime (get_events_by_date sysB.db "2024-06-05") "14:00") "xyz" ≠ []) ∧
    ((advisoryTime (get_events_by_date sysB.db "2024-06-05") "14:00").filter
        (titleMatch "xyz") = [] →
      advisoryTitle (advisoryTime (get_events_by_date sysB.db "2024-06-05") "14:00") "xyz" =
        advisoryTime (get_events_by_date sysB.db "2024-06-05") "14:00") :=
  advisory_narrowing sysB.db "2024-06-05" "14:00" "xyz" (by decide)

/-- C4 (code_bug): the `get_events_by_date` that actually runs (the second,
shadowing definition) compares `DATE(start_time)` in the session timezone,
not in Europe/Rome: an event stored at 2024-06-05T22:30Z starts on
2024-06-06 in Europe/Rome (UTC+120 in June), yet querying 2024-06-06 (day
index 1) under a UTC session returns nothing, while the shadowed
Europe/Rome definition — the one the spec describes — returns the event. -/
theorem date_fetch_timezone_divergence :
    get_events_by_date_eff 0 tzDbEx 1 = [] ∧
    get_events_by_date_rome 120 tzDbEx 1 = [tzEventEx] ∧
    get_events_by_date_rome 120 tzDbEx 1 ≠ get_events_by_date_eff 0 tzDbEx 1 := by
  decide

/-- C8 (confirmed): the `delete_cancel` callback only reports cancellation;
store, calendar, emails, replies and prompts are untouched. -/
theorem cancel_callback_no_mutation (c : Collab) (s : Sys) :
    button_callback c "delete_cancel" s =
      ({ s with edits := s.edits ++ ["❌ Cancellazione annullata."] }, .ok ()) := by
  rfl

theorem emailLoop_frame (c : Collab) (l : List StoredEvent) (s : Sys) :
    (emailLoop c l s).db = s.db ∧ (emailLoop c l s).calendar = s.calendar ∧
    (emailLoop c l s).edits = s.edits ∧ (emailLoop c l s).replies = s.replies ∧
    (emailLoop c l s).prompts = s.prompts := by
  induction l generalizing s with
  | nil => exact ⟨rfl, rfl, rfl, rfl, rfl⟩
  | cons e rest ih =>
    simp only [emailLoop]
    split
    · exact ⟨rfl, rfl, rfl, rfl, rfl⟩
    · exact ih _

theorem delLoop_ok (c : Collab) (l : List StoredEvent) (s : Sys)
    (hdel : ∀ id, c.calDelete id = Except.ok ()) :
    delLoop c l s =
      ({ s with
          db := s.db.filter (fun e =>
            decide (e.event_id ∉ l.map StoredEvent.event_id)),
          calendar := s.calendar.filter (fun id =>
            decide (id ∉ l.map StoredEvent.event_id)) },
       .ok ()) := by
  induction l generalizing s with
  | nil => simp [delLoop]
  | cons e rest ih =>
    simp only [delLoop, hdel e.event_id]
    rw [ih]
    have hdb : (db_delete_event s.db e.event_id).filter
        (fun x => decide (x.event_id ∉ rest.map StoredEvent.event_id)) =
        s.db.filter (fun x => decide (x.event_id ∉ (e :: rest).map StoredEvent.event_id)) := by
      simp only [db_delete_event, List.filter_filter]
      refine List.filter_congr (fun x _ => ?_)
      by_cases h1 : x.event_id = e.event_id <;>
        by_cases h2 : x.event_id ∈ rest.map StoredEvent.event_id <;>
        simp [h1, h2, List.mem_cons]
    have hcal : (s.calendar.filter (fun q => decide (q ≠ e.event_id))).filter
        (fun q => decide (q ∉ rest.map StoredEvent.event_id)) =
        s.calendar.filter (fun q => decide (q ∉ (e :: rest).map StoredEvent.event_id)) := by
      simp only [List.filter_filter]
      refine List.filter_congr (fun q _ => ?_)
      by_cases h1 : q = e.event_id <;>
        by_cases h2 : q ∈ rest.map StoredEvent.event_id <;>
        simp [h1, h2, List.mem_cons]
    rw [hdb, hcal]

/-- C1 counterexample: the confirm-time recompute is NOT stages 1-2 of the
resolver.  With one event at 10:00 on 2024-06-05 and a `{2024-06-05, 09}`
token, stages 1-2 (advisory) recompute the full candidate set, but
`_delete_event` strictly filters by the `09` prefix, deletes nothing and
replies "not found" — so the deleted set differs from the stages-1-2
recomputation, which is non-empty. -/
theorem delete_confirm_not_advisory_cex :
    resolverStage12 sysA.db "2024-06-05" "09" = [evTen] ∧
    deleteRecompute sysA.db "2024-06-05" "09" = [] ∧
    _delete_event collabOK "2024-06-05" "09" sysA =
      ({ sysA with edits := ["❌ Nessun evento trovato."] }, .ok ()) :=
  ⟨rfl, rfl, rfl⟩

/-- Characterization of a successful `_delete_event` run: the store loses
exactly the strictly recomputed target set, the run returns normally, and
the reported edit is the count (or "not found" when the target is empty). -/
theorem delete_event_run (c : Collab) (date time : String) (s : Sys)
    (hdel : ∀ id, c.calDelete id = Except.ok ()) :
    ((_delete_event c date time s).1.db =
       s.db.filter (fun e =>
         decide (e.event_id ∉ (deleteRecompute s.db date time).map StoredEvent.event_id))) ∧
    ((_delete_event c date time s).2 = .ok ()) ∧
    ((_delete_event c date time s).1.edits =
       s.edits ++ [if (deleteRecompute s.db date time).isEmpty then "❌ Nessun evento trovato."
                   else "🗑️ Eliminati " ++ toString (deleteRecompute s.db date time).length ++
                     " eventi."]) := by
  cases htgt : deleteRecompute s.db date time with
  | nil => simp [_delete_event, htgt]
  | cons a as =>
    have hrw : _delete_event c date time s =
        (let s2 := emailLoop c (a :: as)
          { s with
              db := s.db.filter (fun e =>
                decide (e.event_id ∉ (a :: as).map StoredEvent.event_id)),
              calendar := s.calendar.filter (fun id =>
                decide (id ∉ (a :: as).map StoredEvent.event_id)) };
         ({ s2 with
             edits := s2.edits ++
               ["🗑️ Eliminati " ++ toString ((a :: as : List StoredEvent)).length ++ " eventi."] },
          .ok ())) := by
      unfold _delete_event
      rw [htgt]
      simp only [delLoop_ok c (a :: as) s hdel, List.isEmpty_cons, Bool.false_eq_true,
        if_false]
    obtain ⟨hdb, hcal, hed, hrep, hpr⟩ :=
      emailLoop_frame c (a :: as)
        { s with
            db := s.db.filter (fun e =>
              decide (e.event_id ∉ (a :: as).map StoredEvent.event_id)),
            calendar := s.calendar.filter (fun id =>
              decide (id ∉ (a :: as).map StoredEvent.event_id)) }
    rw [hrw]
    refine ⟨hdb, rfl, ?_⟩
    exact congrArg
      (fun l => l ++ ["🗑️ Eliminati " ++ toString ((a :: as : List StoredEvent)).length ++ " eventi."])
      hed

/-- C1 (corrected): on a `confirm` event carrying `{date, time}`,
`_delete_event` deletes exactly the set obtained by fetching the current
store by date and then STRICTLY filtering by the time prefix (with no
advisory fallback, unlike resolver stage 2); the count of that set is
reported, and an empty recomputed set yields the "not found" reply instead
of an error. -/
theorem confirm_delete_strict_recompute (c : Collab) (date time : String) (s : Sys)
    (hdel : ∀ id, c.calDelete id = Except.ok ()) :
    ((_delete_event c date time s).1.db =
       s.db.filter (fun e =>
         decide (e.event_id ∉ (deleteRecompute s.db date time).map StoredEvent.event_id))) ∧
    ((_delete_event c date time s).2 = .ok ()) ∧
    ((_delete_event c date time s).1.edits =
       s.edits ++ [if (deleteRecompute s.db date time).isEmpty then "❌ Nessun evento trovato."
                   else "🗑️ Eliminati " ++ toString (deleteRecompute s.db date time).length ++
                     " eventi."]) :=
  delete_event_run c date time s hdel

/-- Witness for `confirm_delete_strict_recompute`: deleting the 09:30 event
from the two-event store. -/
theorem confirm_delete_strict_recompute_witness :
    ((_delete_event collabOK "2024-06-05" "09:30" sysB).1.db =
       sysB.db.filter (fun e =>
         decide (e.event_id ∉
           (deleteRecompute sysB.db "2024-06-05" "09:30").map StoredEvent.event_id))) ∧
    ((_delete_event collabOK "2024-06-05" "09:30" sysB).2 = .ok ()) ∧
    ((_delete_event collabOK "2024-06-05" "09:30" sysB).1.edits =
       sysB.edits ++
         [if (deleteRecompute sysB.db "2024-06-05" "09:30").isEmpty then
            "❌ Nessun evento trovato."
          else "🗑️ Eliminati " ++
            toString (deleteRecompute sysB.db "2024-06-05" "09:30").length ++ " eventi."]) :=
  confirm_delete_strict_recompute collabOK "2024-06-05" "09:30" sysB (fun _ => rfl)

theorem confirm_delete_frame (a : ActionData) (s : Sys) :
    (_confirm_delete a s).1.db = s.db ∧ (_confirm_delete a s).1.calendar = s.calendar ∧
    ∃ r, (_confirm_delete a s).2 = Except.ok r := by
  unfold _confirm_delete
  cases a.date with
  | none => simp
  | some date =>
    by_cases hd : date = ""
    · simp [hd]
    · simp only [if_neg hd]
      cases he : (get_events_by_date s.db date).isEmpty with
      | true => simp [he]
      | false =>
        simp only [he, Bool.false_eq_true, if_false]
        split <;> simp

/-- C2 (confirmed): handling a delete intent with a non-empty candidate set
never touches the store or the calendar — `_confirm_delete` only emits the
confirmation prompt — and a callback that is not a `delete_confirm:` token
never touches them either: deletion can only happen through the confirm
callback. -/
theorem delete_requires_confirmation (c : Collab) (a : ActionData) (s : Sys) (data : String)
    (ha : a.action = some "delete")
    (_hcand : resolveCandidates s.db a ≠ [])
    (hdata : "delete_confirm:".data.isPrefixOf data.data = false) :
    ((_execute_action c a s).1.db = s.db ∧ (_execute_action c a s).1.calendar = s.calendar) ∧
    ((button_callback c data s).1.db = s.db ∧
      (button_callback c data s).1.calendar = s.calendar) := by
  constructor
  · obtain ⟨h1, h2, r, hr⟩ := confirm_delete_frame a s
    unfold _execute_action
    simp only [ha]
    rw [if_pos trivial]
    rcases hc : _confirm_delete a s with ⟨s1, res⟩
    rw [hc] at h1 h2 hr
    cases res with
    | ok v => exact ⟨h1, h2⟩
    | error e => simp at hr
  · unfold button_callback
    rw [hdata]
    simp only [Bool.false_eq_true, if_false]
    by_cases hdc : data = "delete_cancel"
    · rw [if_pos hdc]
      exact ⟨rfl, rfl⟩
    · rw [if_neg hdc]
      exact ⟨rfl, rfl⟩

/-- Witness for `delete_requires_confirmation`: a delete intent for the
dentist event with an unrelated callback payload. -/
theorem delete_requires_confirmation_witness :
    ((_execute_action collabOK
        ⟨some "delete", some "dentista", none, none, none, some "2024-06-05", some "10:00"⟩
        sysA).1.db = sysA.db ∧
      (_execute_action collabOK
        ⟨some "delete", some "dentista", none, none, none, some "2024-06-05", some "10:00"⟩
        sysA).1.calendar = sysA.calendar) ∧
    ((button_callback collabOK "ciao" sysA).1.db = sysA.db ∧
      (button_callback collabOK "ciao" sysA).1.calendar = sysA.calendar) :=
  delete_requires_confirmation collabOK
    ⟨some "delete", some "dentista", none, none, none, some "2024-06-05", some "10:00"⟩
    sysA "ciao" rfl (by decide) (by decide)

theorem emailLoop_allfail (c : Collab) (e : String) (l : List StoredEvent) (s : Sys)
    (hm : ∀ m, c.mailSend m = Except.error e) : emailLoop c l s = s := by
  cases l with
  | nil => rfl
  | cons x rest => simp [emailLoop, hm]

/-- C7 counterexample: a calendar-delete failure at confirmation time
escapes `button_callback` with the state untouched — in particular no
error-notification email is sent and no failure message is shown to the
user, contradicting the claim. -/
theorem confirm_delete_failure_unnotified_cex :
    button_callback collabDelFail "delete_confirm:2024-06-05:" sysA =
      (sysA, Except.error "boom") ∧
    sysA.emails = [] ∧ sysA.edits = [] ∧ sysA.replies = [] :=
  ⟨rfl, rfl, rfl, rfl⟩

/-- C7 (corrected): at confirmation time, (i) a raising calendar-delete
escapes `_delete_event` (and hence `button_callback`, which has no handler)
before any state change of the current iteration, with no error email and
no user-visible message; (ii) notification failures are caught locally:
the deletion still completes and the count is still reported, only the
notification emails are missing. -/
theorem confirm_delete_failure_behavior (c : Collab) (date time : String) (s : Sys) (e : String) :
    ((∀ id, c.calDelete id = Except.error e) → deleteRecompute s.db date time ≠ [] →
       _delete_event c date time s = (s, .error e)) ∧
    ((∀ id, c.calDelete id = Except.ok ()) → (∀ m, c.mailSend m = Except.error e) →
       (_delete_event c date time s).2 = .ok () ∧
       (_delete_event c date time s).1.emails = s.emails ∧
       (_delete_event c date time s).1.edits = s.edits ++
         [if (deleteRecompute s.db date time).isEmpty then "❌ Nessun evento trovato."
          else "🗑️ Eliminati " ++ toString (deleteRecompute s.db date time).length ++
            " eventi."]) := by
  constructor
  · intro hfail hne
    cases htgt : deleteRecompute s.db date time with
    | nil => exact absurd htgt hne
    | cons a as =>
      unfold _delete_event
      rw [htgt]
      simp [delLoop, hfail a.event_id]
  · intro hdel hmail
    cases htgt : deleteRecompute s.db date time with
    | nil => simp [_delete_event, htgt]
    | cons a as =>
      have hrw : _delete_event c date time s =
          (let s1 : Sys :=
            { s with
                db := s.db.filter (fun x =>
                  decide (x.event_id ∉ (a :: as).map StoredEvent.event_id)),
                calendar := s.calendar.filter (fun id =>
                  decide (id ∉ (a :: as).map StoredEvent.event_id)) };
           ({ s1 with
               edits := s1.edits ++
                 ["🗑️ Eliminati " ++ toString ((a :: as : List StoredEvent)).length ++
                   " eventi."] },
            .ok ())) := by
        unfold _delete_event
        rw [htgt]
        simp only [delLoop_ok c (a :: as) s hdel, List.isEmpty_cons, Bool.false_eq_true,
          if_false]
        rw [emailLoop_allfail c e (a :: as) _ hmail]
      rw [hrw]
      exact ⟨rfl, rfl, rfl⟩

/-- Witness for `confirm_delete_failure_behavior`, one instantiation per
conjunct: a failing calendar-delete, then a failing notification send. -/
theorem confirm_delete_failure_behavior_witness :
    (_delete_event collabDelFail "2024-06-05" "" sysA = (sysA, .error "boom")) ∧
    ((_delete_event collabMailFail "2024-06-05" "" sysA).2 = .ok () ∧
     (_delete_event collabMailFail "2024-06-05" "" sysA).1.emails = sysA.emails ∧
     (_delete_event collabMailFail "2024-06-05" "" sysA).1.edits = sysA.edits ++
       [if (deleteRecompute sysA.db "2024-06-05" "").isEmpty then "❌ Nessun evento trovato."
        else "🗑️ Eliminati " ++ toString (deleteRecompute sysA.db "2024-06-05" "").length ++
          " eventi."]) :=
  ⟨(confirm_delete_failure_behavior collabDelFail "2024-06-05" "" sysA "boom").1
      (fun _ => rfl) (by decide),
   (confirm_delete_failure_behavior collabMailFail "2024-06-05" "" sysA "mailboom").2
      (fun _ => rfl) (fun _ => rfl)⟩

theorem replaceListF_single (a b : Char) :
    ∀ (n : Nat) (l : List Char), l.length ≤ n →
      replaceListF [a] [b] n l = l.map (fun c => if c = a then b else c)
  | 0, [], _ => rfl
  | 0, _ :: _, h => absurd h (by simp)
  | _ + 1, [], _ => rfl
  | n + 1, c :: cs, h => by
    have hrec := replaceListF_single a b n cs (by simpa using h)
    by_cases hc : a = c
    · subst hc
      simp [replaceListF, List.isPrefixOf, hrec]
    · simp [replaceListF, List.isPrefixOf, hc, Ne.symm hc, hrec]

/-- After sanitization no literal single-quote character survives: the last
replacement maps every one of them to a double quote. -/
theorem sanitize_no_squote (resp : String) : squote ∉ sanitizeChars resp := by
  unfold sanitizeChars replaceList
  rw [replaceListF_single squote '"' _ _ le_rfl]
  intro hmem
  rcases List.mem_map.mp hmem with ⟨c, _, hc⟩
  by_cases h : c = squote
  · rw [if_pos h] at hc
    exact absurd hc (by decide)
  · rw [if_neg h] at hc
    exact h hc

/-- C10 counterexample: a response in which the apostrophe is written as the
JSON escape `'` survives sanitization, parses successfully, and its
title contains a literal single quote — refuting "no parsed title can ever
contain a single-quote character". -/
theorem parsed_title_squote_cex :
    parse_command respEsc = .ok dictEsc ∧
    getStr dictEsc "summary" = some "l\x27appuntamento" ∧
    squote ∈ "l\x27appuntamento".data :=
  ⟨rfl, rfl, by decide⟩

/-- C10 (corrected): sanitization replaces every literal single quote before
deserialization (so the sanitized text contains none, and the valid-JSON
response with a literal apostrophe in the Italian title fails to parse with
the ParseError text), but a parsed title can still contain a single quote
when the response encodes it as the `'` escape. -/
theorem sanitization_policy :
    (∀ resp : String, squote ∉ sanitizeChars resp) ∧
    parse_command respLit = .error "Formato risposta non riconosciuto" ∧
    (∃ d, parse_command respEsc = .ok d ∧
       ∃ t, getStr d "summary" = some t ∧ squote ∈ t.data) :=
  ⟨sanitize_no_squote, rfl, dictEsc, rfl, "l\x27appuntamento", rfl, by decide⟩

theorem exec_add_fail (c : Collab) (a : ActionData) (s : Sys) (sum st en e : String)
    (ha : a.action = some "add") (hsum : a.summary = some sum) (hst : a.start = some st)
    (hen : a.end_ = some en) (hfail : c.calCreate sum st en = Except.error e)
    (hmail : c.mailSend (errEmail "add" e) = Except.ok ()) :
    _execute_action c a s = ({ s with emails := s.emails ++ [errEmail "add" e] }, .error e) := by
  unfold _execute_action _add_event
  simp only [ha, hsum, hst, hen, hfail]
  rw [if_pos trivial]
  simp only [actionStr, ha, Option.getD_some, sendEmail, hmail]

/-- C6 (confirmed): for an add intent whose calendar-create call fails, the
store (and the calendar mirror) is left untouched, the best-effort
error-notification email is sent, and the propagated error surfaces to the
user as the fixed generic failure message — nothing else changes. -/
theorem add_calendar_failure_atomic (c : Collab) (resp : String) (s : Sys)
    (d : List (String × Json)) (sum st en e : String)
    (hparse : parse_command resp = Except.ok d)
    (ha : getStr d "action" = some "add")
    (hsum : getStr d "summary" = some sum)
    (hst : getStr d "start" = some st)
    (hen : getStr d "end" = some en)
    (hfail : c.calCreate sum st en = Except.error e)
    (hmail : c.mailSend (errEmail "add" e) = Except.ok ()) :
    handle_message c resp s =
      { s with emails := s.emails ++ [errEmail "add" e],
               replies := s.replies ++ [genericErr] } := by
  have hbranch : handle_message c resp s =
      (match _execute_action c (toActionData d) s with
        | (s1, .ok (some r)) => { s1 with replies := s1.replies ++ [r] }
        | (s1, .ok none) => s1
        | (s1, .error _) => { s1 with replies := s1.replies ++ [genericErr] }) := by
    unfold handle_message
    rw [hparse]
  rw [hbranch, exec_add_fail c (toActionData d) s sum st en e ha hsum hst hen hfail hmail]

/-- Witness for `add_calendar_failure_atomic`: the scenario-1 add command
against a failing calendar collaborator and an empty store. -/
theorem add_calendar_failure_atomic_witness :
    handle_message collabAddFail respAdd sys0 =
      { sys0 with emails := sys0.emails ++ [errEmail "add" "boom"],
                  replies := sys0.replies ++ [genericErr] } :=
  add_calendar_failure_atomic collabAddFail respAdd sys0 dictAdd
    "riunione" "2024-05-30T14:00:00" "2024-05-30T16:00:00" "boom"
    rfl rfl rfl rfl rfl rfl rfl

/-- C5 counterexample: a failing calendar-update on the modify path puts the
raw fault text (`str(e)`, here `boom`) into the user-visible reply,
contradicting "the message shown to the user never contains the raw fault
text". -/
theorem modify_failure_leaks_fault_cex :
    (handle_message collabUpdFail respMod sysA).replies = [modErrMsg "boom"] ∧
    containsSub "boom".data (modErrMsg "boom").data = true :=
  ⟨rfl, by decide⟩

/-- C5 (corrected): parse failures and failures propagating out of
`_execute_action` are answered with the fixed generic message, which embeds
no fault text; but the modify path's local handler embeds the raw `str(e)`
in the reply it shows the user. -/
theorem failure_message_policy :
    (∀ (c : Collab) (resp : String) (s : Sys) (e : String),
       parse_command resp = Except.error e →
       handle_message c resp s = { s with replies := s.replies ++ [genericErr] }) ∧
    (∀ (c : Collab) (resp : String) (s s1 : Sys) (d : List (String × Json)) (e : String),
       parse_command resp = Except.ok d →
       _execute_action c (toActionData d) s = (s1, .error e) →
       handle_message c resp s = { s1 with replies := s1.replies ++ [genericErr] }) ∧
    (∀ (c : Collab) (a : ActionData) (s : Sys) (eid sum st en e : String),
       a.event_id = some eid → eid ≠ "" → eid ≠ "ID_DA_CERCARE_IN_DB" →
       a.summary = some sum → a.start = some st → a.end_ = some en →
       c.calUpdate eid sum st en = Except.error e →
       (_modify_event c a s).2 = .ok (modErrMsg e)) := by
  refine ⟨?_, ?_, ?_⟩
  · intro c resp s e hp
    unfold handle_message
    rw [hp]
  · intro c resp s s1 d e hp hx
    have hbranch : handle_message c resp s =
        (match _execute_action c (toActionData d) s with
          | (s2, .ok (some r)) => { s2 with replies := s2.replies ++ [r] }
          | (s2, .ok none) => s2
          | (s2, .error _) => { s2 with replies := s2.replies ++ [genericErr] }) := by
      unfold handle_message
      rw [hp]
    rw [hbranch, hx]
  · intro c a s eid sum st en e heid h1 h2 hsum hst hen hupd
    unfold _modify_event modifyTry
    rw [if_neg (by simp [heid, h1, h2])]
    simp only [heid, Option.getD_some, hsum, hst, hen, hupd]

/-- Witness for `failure_message_policy`: a non-JSON response, the add
failure run, and the modify fault-leak run. -/
theorem failure_message_policy_witness :
    (handle_message collabOK "ciao" sys0 = { sys0 with replies := sys0.replies ++ [genericErr] }) ∧
    (handle_message collabAddFail respAdd sys0 =
      { { sys0 with emails := [errEmail "add" "boom"] } with
          replies := { sys0 with emails := [errEmail "add" "boom"] }.replies ++ [genericErr] }) ∧
    ((_modify_event collabUpdFail
        ⟨some "modify", some "call", some "2024-05-30T15:00:00", some "2024-05-30T16:00:00",
         some "ev9", none, none⟩ sysA).2 = .ok (modErrMsg "boom")) :=
  ⟨failure_message_policy.1 collabOK "ciao" sys0 "Formato risposta non riconosciuto" rfl,
   failure_message_policy.2.1 collabAddFail respAdd sys0
     { sys0 with emails := [errEmail "add" "boom"] } dictAdd "boom" rfl rfl,
   failure_message_policy.2.2 collabUpdFail
     ⟨some "modify", some "call", some "2024-05-30T15:00:00", some "2024-05-30T16:00:00",
      some "ev9", none, none⟩ sysA
     "ev9" "call" "2024-05-30T15:00:00" "2024-05-30T16:00:00" "boom"
     rfl (by decide) (by decide) rfl rfl rfl rfl⟩

theorem str_data_append (a b : String) : (a ++ b).data = a.data ++ b.data := by
  obtain ⟨la⟩ := a
  obtain ⟨lb⟩ := b
  rfl

theorem str_append_empty (a : String) : a ++ "" = a := by
  obtain ⟨la⟩ := a
  show String.mk (la ++ []) = String.mk la
  rw [List.append_nil]

theorem nil_isPrefixOf (l : List Char) : List.isPrefixOf [] l = true := by
  cases l <;> rfl

theorem isPrefixOf_append_self (x y : List Char) : x.isPrefixOf (x ++ y) = true := by
  induction x with
  | nil => exact nil_isPrefixOf y
  | cons a as ih => simp [List.isPrefixOf, ih]

theorem pySplitAux_no_sep (sep : Char) (m : Nat) (l rest : List Char) (hl : sep ∉ l) :
    pySplitAux sep (m + 1) (l ++ sep :: rest) = l :: pySplitAux sep m rest := by
  induction l with
  | nil => simp [pySplitAux]
  | cons c cs ih =>
    have hc : ¬(c = sep) := fun h => hl (h ▸ List.mem_cons_self c cs)
    have ih2 := ih (fun h => hl (List.mem_cons_of_mem c h))
    simp only [List.cons_append, pySplitAux, if_neg hc, List.append_eq]
    rw [ih2]

theorem pySplitAux_zero (l : List Char) (sep : Char) : pySplitAux sep 0 l = [l] := by
  cases l <;> rfl

/-- Splitting the confirmation token: `str.split(":", 2)` on
`delete_confirm:<date>:<time>` yields the tag, the date and the time (the
time keeps any of its own colons, thanks to the maxsplit). -/
theorem pySplit_token (d t : String) (hcolon : ':' ∉ d.data) :
    pySplitAux ':' 2 ("delete_confirm".data ++ ':' :: (d.data ++ ':' :: t.data)) =
      ["delete_confirm".data, d.data, t.data] := by
  rw [pySplitAux_no_sep ':' 1 "delete_confirm".data (d.data ++ ':' :: t.data) (by decide)]
  rw [pySplitAux_no_sep ':' 0 d.data t.data hcolon]
  rw [pySplitAux_zero]

/-- The routing step of `button_callback` for a well-formed token whose date
has no colon: the payload splits back into `{date, time}` and the deletion
routine runs on them. -/
theorem button_token_routes (c : Collab) (d t : String) (s : Sys)
    (hcolon : ':' ∉ d.data) :
    button_callback c ("delete_confirm:" ++ d ++ ":" ++ t) s = _delete_event c d t s := by
  have hdata : ("delete_confirm:" ++ d ++ ":" ++ t).data =
      "delete_confirm:".data ++ (d.data ++ ':' :: t.data) := by
    rw [str_data_append, str_data_append, str_data_append]
    simp [List.append_assoc]
  have hdata2 : ("delete_confirm:" ++ d ++ ":" ++ t).data =
      "delete_confirm".data ++ ':' :: (d.data ++ ':' :: t.data) := by
    rw [hdata]
    rfl
  unfold button_callback
  rw [hdata, isPrefixOf_append_self, if_pos rfl]
  rw [← hdata, hdata2, pySplit_token d t hcolon]
  have hd : String.mk d.data = d := by obtain ⟨dl⟩ := d; rfl
  have ht : String.mk t.data = t := by obtain ⟨tl⟩ := t; rfl
  simp [List.getD, hd, ht]

/-- Deleting by identifier over a store with unique identifiers (the
`event_id UNIQUE` column constraint) removes exactly the rows matched by
the fetch predicate. -/
theorem filter_not_mem_ids (db : List StoredEvent) (p : StoredEvent → Bool)
    (hnodup : (db.map StoredEvent.event_id).Nodup) :
    db.filter (fun x => decide (x.event_id ∉ (db.filter p).map StoredEvent.event_id)) =
      db.filter (fun x => !(p x)) := by
  refine List.filter_congr (fun x hx => ?_)
  by_cases hp : p x
  · have hmem : x.event_id ∈ (db.filter p).map StoredEvent.event_id :=
      List.mem_map.mpr ⟨x, List.mem_filter.mpr ⟨hx, hp⟩, rfl⟩
    simp [hmem, hp]
  · have hnmem : x.event_id ∉ (db.filter p).map StoredEvent.event_id := by
      intro hmem
      rcases List.mem_map.mp hmem with ⟨y, hy, hyx⟩
      rcases List.mem_filter.mp hy with ⟨hydb, hyp⟩
      have hxy : y = x := List.inj_on_of_nodup_map hnodup hydb hx hyx
      exact hp (hxy ▸ hyp)
    simp [hnmem, hp]

/-- Deleting with an empty time component removes every stored event of the
date from the store (the empty prefix matches every time of day). -/
theorem delete_event_empty_time (c : Collab) (d : String) (s : Sys)
    (hnodup : (s.db.map StoredEvent.event_id).Nodup)
    (hdel : ∀ id, c.calDelete id = Except.ok ()) :
    (_delete_event c d "" s).1.db =
      s.db.filter (fun e => decide (dateOfStart e ≠ d)) := by
  have htar : deleteRecompute s.db d "" = get_events_by_date s.db d := by
    unfold deleteRecompute
    exact List.filter_eq_self.mpr (fun a _ => nil_isPrefixOf (timeOfStart a))
  have h := (delete_event_run c d "" s hdel).1
  rw [htar] at h
  rw [h]
  have hmain := filter_not_mem_ids s.db (fun e => decide (dateOfStart e = d)) hnodup
  exact hmain.trans (List.filter_congr (fun x _ => by simp [decide_not]))

/-- C9 (confirmed): a delete intent with a date but no time produces the
confirmation token `delete_confirm:<date>:` with an empty time component,
and confirming that token deletes every event stored under that date at
confirmation time (the empty prefix matches every start time), regardless
of which candidates the prompt displayed. -/
theorem empty_time_token_deletes_whole_date (c : Collab) (a : ActionData) (s : Sys)
    (d : String)
    (hd : a.date = some d) (hdne : d ≠ "") (hcolon : ':' ∉ d.data)
    (ht : a.time = none ∨ a.time = some "")
    (hne : (get_events_by_date s.db d).isEmpty = false)
    (hnodup : (s.db.map StoredEvent.event_id).Nodup)
    (hdel : ∀ id, c.calDelete id = Except.ok ()) :
    (∃ p, (_confirm_delete a s).1.prompts = s.prompts ++ [p] ∧
        p.confirm_data = "delete_confirm:" ++ d ++ ":") ∧
    (button_callback c ("delete_confirm:" ++ d ++ ":") s).1.db =
      s.db.filter (fun e => decide (dateOfStart e ≠ d)) := by
  constructor
  · have ht2 : a.time.getD "" = "" := by rcases ht with h | h <;> simp [h]
    unfold _confirm_delete
    simp only [hd, ht2]
    rw [if_neg hdne]
    simp only [hne, Bool.false_eq_true, if_false]
    split
    · exact ⟨_, rfl, by rw [str_append_empty]⟩
    · exact ⟨_, rfl, by rw [str_append_empty]⟩
  · rw [show ("delete_confirm:" ++ d ++ ":") = ("delete_confirm:" ++ d ++ ":" ++ "") from
      (str_append_empty _).symm]
    rw [button_token_routes c d "" s hcolon]
    exact delete_event_empty_time c d s hnodup hdel

/-- Witness for `empty_time_token_deletes_whole_date`: a date-only delete
intent over the two-event store. -/
theorem empty_time_token_deletes_whole_date_witness :
    (∃ p, (_confirm_delete
        ⟨some "delete", none, none, none, none, some "2024-06-05", none⟩ sysB).1.prompts =
          sysB.prompts ++ [p] ∧
        p.confirm_data = "delete_confirm:" ++ "2024-06-05" ++ ":") ∧
    (button_callback collabOK ("delete_confirm:" ++ "2024-06-05" ++ ":") sysB).1.db =
      sysB.db.filter (fun e => decide (dateOfStart e ≠ "2024-06-05")) :=
  empty_time_token_deletes_whole_date collabOK
    ⟨some "delete", none, none, none, none, some "2024-06-05", none⟩ sysB "2024-06-05"
    rfl (by decide) (by decide) (Or.inl rfl) rfl (by decide) (fun _ => rfl)

/-- Witness for `sanitization_policy`: instance of its universal conjunct at
the Italian title. -/
theorem sanitization_policy_witness :
    squote ∉ sanitizeChars "l\x27appuntamento" :=
  sanitization_policy.1 "l\x27appuntamento"
